import Mathlib

/-!
Verification development for the ftl-automation repository
(`src/ftl_automation/`): a shallow embedding in Lean 4 of the data model
and operations of the tool/context resolution and execution layer —
builtin capabilities (`builtin_tools.py`), the exception classes
(`exceptions.py`), the automation context manager (`core.py`), the
execution context and tools proxy (`context.py`), the tool base
abstraction (`tool_base.py`), and the tool registry loader (`tools.py`) —
together with theorems settling the specification claims about them.

Python strings containing a brace or an apostrophe are written with the
escapes \x7b, \x7d and \x27.
-/

set_option autoImplicit false

namespace FtlAutomation

/-- Python values, to the granularity the embedded code distinguishes them:
strings, None, a reference to the AutomationContext object, and a reference
to a plain function (identified by its dotted path). -/
inductive PyVal where
  | vStr (s : String)
  | vNone
  | vCtx
  | vFunc (path : String)
  deriving DecidableEq

/-- Python str() conversion, as used by f-string interpolation. Only the
string case matters to the theorems; the others are symbolic renderings. -/
def pyStr : PyVal → String
  | PyVal.vStr s => s
  | PyVal.vNone => "None"
  | PyVal.vCtx => "<AutomationContext object>"
  | PyVal.vFunc p => "<function " ++ p ++ ">"

/-- The exception classes the embedded code can raise or catch. The
repository defines TWO pairs of completion/impossible classes:
`builtin_tools.py` lines 46-53 define `CompletionException` and
`ImpossibleException` directly, and `exceptions.py` lines 8-15 define
classes of the same names again. All four extend `Exception` directly;
none is a subclass of another, so an `except` clause for one never
matches an instance of the other. -/
inductive ExcClass where
  | builtinCompletion
  | builtinImpossible
  | excCompletion
  | excImpossible
  | typeError
  | attributeError
  deriving DecidableEq

/-- A raised Python exception: its class and the argument it carries. -/
structure Exc where
  cls : ExcClass
  payload : PyVal
  deriving DecidableEq

/-- Embeds `complete` (builtin_tools.py lines 56-73): prints
`[green]✓ message[/green]` to the console when a console was supplied in
kwargs, plain `✓ message` otherwise, then unconditionally raises
`builtin_tools.CompletionException(message)`. Returns the printed line and
the raised exception. -/
def complete (message : PyVal) (consolePresent : Bool) : String × Exc :=
  ((if consolePresent then "[green]✓ " ++ pyStr message ++ "[/green]"
    else "✓ " ++ pyStr message),
   ⟨ExcClass.builtinCompletion, message⟩)

/-- Embeds `impossible` (builtin_tools.py lines 76-93): prints
`[red]✗ reason[/red]` (or plain `✗ reason` without a console), then
unconditionally raises `builtin_tools.ImpossibleException(reason)`. -/
def impossible (reason : PyVal) (consolePresent : Bool) : String × Exc :=
  ((if consolePresent then "[red]✗ " ++ pyStr reason ++ "[/red]"
    else "✗ " ++ pyStr reason),
   ⟨ExcClass.builtinImpossible, reason⟩)

/-- Outcome of the caller code run inside the `with automation(...)` body. -/
inductive BodyOutcome where
  | normal
  | raised (e : Exc)
  deriving DecidableEq

/-- What the automation context manager does on scope exit. -/
structure ExitResult where
  cleanupRan : Bool
  reraised : Option Exc
  deriving DecidableEq

/-- Embeds the exception-handling tail of `automation` (core.py lines
146-161): `except CompletionException: pass` followed by a `finally:`
block that stops the loop and runs cleanup. The `CompletionException`
caught there is the one imported at core.py line 11 from
`ftl_automation.exceptions`; Python matches `except` clauses by class
(including subclasses), and `exceptions.CompletionException` has no
subclasses in the repository, so the clause matches exactly the class
`ExcClass.excCompletion`. The `finally:` block runs on every path. -/
def automationExit : BodyOutcome → ExitResult
  | BodyOutcome.normal => ⟨true, Option.none⟩
  | BodyOutcome.raised e =>
      ⟨true, if e.cls = ExcClass.excCompletion then Option.none else Option.some e⟩

/-- Claim C1: calling the `complete` builtin with message M prints a
success-styled line containing M and raises the completion signal with M
as payload — both hold — and the automation context manager catches that
signal and exits without re-raising. The last part FAILS on the code:
`complete` raises `builtin_tools.CompletionException`, while `automation`
catches `exceptions.CompletionException`, a distinct class, so the signal
is re-raised out of the scope. This theorem evaluates the embedded code:
the printed line contains M, the raised exception is the builtin
completion class with payload M, and `automationExit` re-raises that very
exception instead of swallowing it. -/
theorem complete_signal_escapes_automation_handler (M : String) (consolePresent : Bool) :
    (∃ pre post, (complete (PyVal.vStr M) consolePresent).fst = pre ++ M ++ post) ∧
    (complete (PyVal.vStr M) consolePresent).snd =
      ⟨ExcClass.builtinCompletion, PyVal.vStr M⟩ ∧
    automationExit (BodyOutcome.raised (complete (PyVal.vStr M) consolePresent).snd) =
      ⟨true, Option.some ⟨ExcClass.builtinCompletion, PyVal.vStr M⟩⟩ := by
  refine ⟨?_, rfl, rfl⟩
  cases consolePresent with
  | false => exact ⟨"✓ ", "", by simp [complete, pyStr]⟩
  | true => exact ⟨"[green]✓ ", "[/green]", rfl⟩

/-- Claim C7: calling the `impossible` builtin with reason R prints a
failure-styled line containing R and raises the impossible signal with R
as payload, and that signal propagates out of the automation context
manager uncaught, after the cleanup in the `finally:` block has run:
`automationExit` reports cleanup ran and re-raises the same exception
(its `except` clause only matches the completion class from
`exceptions.py`). -/
theorem impossible_signal_propagates_uncaught (R : String) (consolePresent : Bool) :
    (∃ pre post, (impossible (PyVal.vStr R) consolePresent).fst = pre ++ R ++ post) ∧
    (impossible (PyVal.vStr R) consolePresent).snd =
      ⟨ExcClass.builtinImpossible, PyVal.vStr R⟩ ∧
    automationExit (BodyOutcome.raised (impossible (PyVal.vStr R) consolePresent).snd) =
      ⟨true, Option.some ⟨ExcClass.builtinImpossible, PyVal.vStr R⟩⟩ := by
  refine ⟨?_, rfl, rfl⟩
  cases consolePresent with
  | false => exact ⟨"✗ ", "", by simp [impossible, pyStr]⟩
  | true => exact ⟨"[red]✗ ", "[/red]", rfl⟩

/-! ## Execution context: ToolsProxy and AutomationContext (context.py) -/

/-- The capability mapping `_tools_dict`: Python dict from name to tool,
embedded as an association list (insertion order, first match wins for
lookup; the embedded code never stores duplicate keys). -/
abbrev ToolsDict := List (String × PyVal)

/-- Python `dict.get`-style lookup on an association list. -/
def lookupA {α : Type} : List (String × α) → String → Option α
  | [], _ => Option.none
  | (k, v) :: rest, key => if k = key then Option.some v else lookupA rest key

/-- The AttributeError raised by `ToolsProxy.__getattr__` (context.py line
18): message `Tool '<name>' not found`. -/
def toolNotFoundErr (name : String) : Exc :=
  ⟨ExcClass.attributeError, PyVal.vStr ("Tool \x27" ++ name ++ "\x27 not found")⟩

/-- Attributes defined on the `ToolsProxy` class (context.py lines 9-27):
`__init__`, `__getattr__`, `__contains__`, `__iter__`, `keys`. Python
resolves these through normal class attribute lookup, so `__getattr__` is
never consulted for them. -/
def toolsProxyClassAttrNames : List String :=
  ["__init__", "__getattr__", "__contains__", "__iter__", "keys"]

/-- Result of an attribute access on a ToolsProxy instance. -/
inductive ProxyAttr where
  | underlyingDict
  | classMethod (m : String)
  | tool (t : PyVal)
  | raised (e : Exc)
  deriving DecidableEq

/-- Embeds attribute access on a `ToolsProxy` instance (context.py lines
9-27). Normal lookup finds the `_tools` instance attribute or a class
method; for any other name Python falls back to `__getattr__` (lines
15-18), which returns `self._tools[name]` when present and otherwise
raises `AttributeError(f"Tool '\x7bname\x7d' not found")`. -/
def toolsProxyGetattr (tools : ToolsDict) (name : String) : ProxyAttr :=
  if name = "_tools" then ProxyAttr.underlyingDict
  else if name ∈ toolsProxyClassAttrNames then ProxyAttr.classMethod name
  else
    match lookupA tools name with
    | Option.some t => ProxyAttr.tool t
    | Option.none => ProxyAttr.raised (toolNotFoundErr name)

/-- Instance attributes set by `AutomationContext.__init__` (context.py
lines 37-61) plus the methods of the class. `extraKeys` are the `**kwargs`
keys stored by the `setattr` loop at lines 60-61. The class defines no
`__getattr__`, so these are the only names attribute access can resolve
(besides object dunders, which no capability name collides with). -/
def automationContextAttrNames (extraKeys : List String) : List String :=
  ["inventory", "modules", "_tools_dict", "tools", "localhost", "extra_vars",
   "console", "secrets", "gate_cache", "use_gate"] ++ extraKeys ++
  ["__init__", "get_tool", "execute_tool", "run_module", "print", "cleanup"]

/-- The default AttributeError for an attribute missing on an
AutomationContext instance. -/
def ctxNoAttrErr (name : String) : Exc :=
  ⟨ExcClass.attributeError,
   PyVal.vStr ("\x27AutomationContext\x27 object has no attribute \x27" ++ name ++ "\x27")⟩

/-- Result of a direct attribute access on an AutomationContext instance. -/
inductive CtxAttrResult where
  | attr (name : String)
  | raised (e : Exc)
  deriving DecidableEq

/-- Embeds direct attribute access `context.<name>` on an
`AutomationContext` (context.py lines 30-104): the class defines no
`__getattr__` fallback to `_tools_dict`, so only the attributes written in
`__init__` and the class methods resolve; every other name — including
every bound capability name — raises the default AttributeError. The
bound-tools mapping plays no part in direct attribute resolution. -/
def contextGetattrDirect (extraKeys : List String) (name : String) : CtxAttrResult :=
  if name ∈ automationContextAttrNames extraKeys then CtxAttrResult.attr name
  else CtxAttrResult.raised (ctxNoAttrErr name)

/-- Outcome of `AutomationContext.get_tool` (context.py lines 63-65). -/
inductive GetToolOutcome where
  | raised (e : Exc)
  | callsToolNamedGet (t : PyVal) (arg : String)
  deriving DecidableEq

/-- Embeds `AutomationContext.get_tool` (context.py lines 63-65):
`return self.tools.get(name)`. `self.tools` is a `ToolsProxy`, and `get`
is neither its `_tools` instance attribute nor one of its class attributes
(`toolsProxyClassAttrNames`), so the access runs `ToolsProxy.__getattr__`
with the literal name `"get"`: if a tool named `get` happens to be bound
it is returned and then called with `name` as its single positional
argument; otherwise `AttributeError("Tool 'get' not found")` is raised.
The lemma `get_tool_uses_proxy_getattr` ties this definition to the
general proxy semantics. -/
def get_tool (tools : ToolsDict) (name : String) : GetToolOutcome :=
  match lookupA tools "get" with
  | Option.some t => GetToolOutcome.callsToolNamedGet t name
  | Option.none => GetToolOutcome.raised (toolNotFoundErr "get")

/-- The attribute access performed by `get_tool` is exactly the ToolsProxy
attribute semantics at the name `get`. -/
theorem get_tool_uses_proxy_getattr (tools : ToolsDict) :
    toolsProxyGetattr tools "get" =
      (match lookupA tools "get" with
       | Option.some t => ProxyAttr.tool t
       | Option.none => ProxyAttr.raised (toolNotFoundErr "get")) := by
  have h1 : ¬ (("get" : String) = "_tools") := by decide
  have h2 : ¬ (("get" : String) ∈ toolsProxyClassAttrNames) := by decide
  simp [toolsProxyGetattr, h1, h2]

/-- Claim C5: the claim says `get_tool` is a pure lookup that never raises
and returns None when the name is missing. On the code it FAILS: for every
capability mapping in which no tool is literally named `get` (in
particular every mapping produced by the repository itself), `get_tool`
raises `AttributeError("Tool 'get' not found")` for every requested name,
bound or not, because `self.tools.get` triggers `ToolsProxy.__getattr__`
with the name `get`. `execute_tool` (context.py lines 67-71) checks the
result against None, confirming the intended contract. -/
theorem get_tool_always_raises_without_tool_named_get
    (tools : ToolsDict) (name : String) (h : lookupA tools "get" = Option.none) :
    get_tool tools name = GetToolOutcome.raised (toolNotFoundErr "get") := by
  simp [get_tool, h]

/-- Witness for claim C5's theorem: a context whose mapping binds
`debug_tool` — looking that bound name up still raises. -/
theorem get_tool_always_raises_without_tool_named_get_witness :
    get_tool [("debug_tool", PyVal.vFunc "ftl_automation.builtin_tools.debug_tool")]
        "debug_tool" =
      GetToolOutcome.raised (toolNotFoundErr "get") :=
  get_tool_always_raises_without_tool_named_get
    [("debug_tool", PyVal.vFunc "ftl_automation.builtin_tools.debug_tool")]
    "debug_tool" (by decide)

/-- A concrete bound-capability mapping used to evaluate claim C6: one
bound tool named `debug_tool`. -/
def c6DemoTools : ToolsDict :=
  [("debug_tool", PyVal.vFunc "ftl_automation.builtin_tools.debug_tool")]

/-- Claim C6: the proxy view `context.tools.<name>` resolves a bound name
to the very bound capability (so invoking it returns the capability's own
result unchanged) and raises an AttributeError whose message includes the
name when the name is unbound — both hold. But the claim also says DIRECT
access `context.<name>` resolves bound capability names, and that FAILS on
the code: `AutomationContext` has no `__getattr__`, so `context.debug_tool`
raises AttributeError even though `debug_tool` is bound in the mapping
(the repository's examples, e.g. examples/builtin_tools_demo.py line 21,
rely on exactly this direct form). -/
theorem direct_context_access_fails_for_bound_tool :
    toolsProxyGetattr c6DemoTools "debug_tool" =
      ProxyAttr.tool (PyVal.vFunc "ftl_automation.builtin_tools.debug_tool") ∧
    toolsProxyGetattr c6DemoTools "linode_tool" =
      ProxyAttr.raised (toolNotFoundErr "linode_tool") ∧
    pyStr (toolNotFoundErr "linode_tool").payload =
      "Tool \x27" ++ "linode_tool" ++ "\x27 not found" ∧
    contextGetattrDirect [] "debug_tool" =
      CtxAttrResult.raised (ctxNoAttrErr "debug_tool") := by
  refine ⟨?_, ?_, by decide, ?_⟩ <;> decide

/-! ## Tool base abstraction (tool_base.py) -/

/-- The keyword-parameter signature of a `forward` implementation:
`params` is the full list of declared keyword-bindable parameter names
(after `self`), `requiredParams` the ones without a default, and
`hasKwargs` whether the definition ends in `**kwargs`. -/
structure ForwardSig where
  params : List String
  requiredParams : List String
  hasKwargs : Bool
  deriving DecidableEq

/-- Key order produced by `dict.update`: existing keys keep their place
and value, new keys are appended in their own order. Only the key set and
order matter to call binding, so the embedding tracks keys alone. -/
def dictUpdateKeys (base upd : List String) : List String :=
  base ++ upd.filter (fun k => ¬ base.contains k)

/-- The context keys `AutomationTool.__call__` injects into every call
(tool_base.py lines 52-58): `inventory`, `modules`, `console`, `secrets`,
followed by the keys of `self.context` (the constructor's `**kwargs`). -/
def contextInjectedKeys : List String := ["inventory", "modules", "console", "secrets"]

/-- Python keyword-call binding for `forward(**kwargs)`: a keyword not
among the declared parameters of a definition without `**kwargs` raises
`TypeError: forward() got an unexpected keyword argument '<k>'` (the first
such key in dict order); afterwards any missing required parameter raises
the corresponding TypeError. A successful binding returns unit — the
embedding only tracks whether the call enters `forward` at all. -/
def kwBindCheck (sig : ForwardSig) (keys : List String) : Except Exc Unit :=
  match keys.find? (fun k => ! (sig.params.contains k || sig.hasKwargs)) with
  | Option.some k =>
      Except.error ⟨ExcClass.typeError,
        PyVal.vStr ("forward() got an unexpected keyword argument \x27" ++ k ++ "\x27")⟩
  | Option.none =>
      match sig.requiredParams.find? (fun p => ! keys.contains p) with
      | Option.some p =>
          Except.error ⟨ExcClass.typeError,
            PyVal.vStr ("forward() missing 1 required positional argument: \x27" ++ p ++ "\x27")⟩
      | Option.none => Except.ok ()

/-- Embeds `AutomationTool.__call__` (tool_base.py lines 41-60): the user's
keyword arguments are updated with the four stored context values and the
keys of `self.context`, and `self.forward(**kwargs)` is invoked with the
merged dictionary. -/
def automationToolCall (sig : ForwardSig) (selfContextKeys : List String)
    (userKeys : List String) : Except Exc Unit :=
  kwBindCheck sig (dictUpdateKeys userKeys (dictUpdateKeys contextInjectedKeys selfContextKeys))

/-- The signature of `DebugTool.forward` (builtin_tools.py line 275):
`def forward(self, message: str)` — one required parameter, no
`**kwargs`. -/
def debugToolForwardSig : ForwardSig := ⟨["message"], ["message"], false⟩

/-- Claim C4: the claim (and the spec invariant) says a bound capability is
callable with exactly its declared tool-specific parameters. On the code it
FAILS: a `DebugTool` instance bound via `DebugTool(inventory, modules,
console)` (so `self.context` is empty) and called as `tool(message=...)`
has `AutomationTool.__call__` merge `inventory`, `modules`, `console` and
`secrets` into the keyword arguments of `forward`, whose definition
accepts only `message` and no `**kwargs`, so the call raises
`TypeError: forward() got an unexpected keyword argument 'inventory'`
instead of returning the result of `forward`. -/
theorem bound_debug_tool_call_with_declared_params_raises :
    automationToolCall debugToolForwardSig [] ["message"] =
      Except.error ⟨ExcClass.typeError,
        PyVal.vStr "forward() got an unexpected keyword argument \x27inventory\x27"⟩ := by
  rfl

/-! ## Tool registry loader (tools.py) -/

/-- The importable-module universe: dotted module path to the list of the
names of the functions found in it by `inspect.getmembers` (public and
private). A path absent from the environment is one whose import raises
ImportError. -/
abbrev ModuleEnv := List (String × List String)

/-- Embeds Python `name.startswith('_')` for the one-character pattern:
true exactly when the first character of the name is an underscore. -/
def startsWithUnderscore (m : String) : Bool :=
  match m.data with
  | [] => false
  | c :: _ => c = '_'

/-- One iteration of the loop in `load_tools_by_name` (tools.py lines
69-82) for a single requested `tool_name`: import
`ftl_tools.tools.<tool_name>`; on success add every function member whose
name does not start with an underscore under the key
`<tool_name>_<member>`, bound to the plain function object; on
ImportError do nothing (`pass` — no warning, no logging). -/
def loadToolStep (env : ModuleEnv) (acc : List (String × PyVal)) (n : String) :
    List (String × PyVal) :=
  match lookupA env ("ftl_tools.tools." ++ n) with
  | Option.some members =>
      acc ++ (members.filter (fun m => ! startsWithUnderscore m)).map
        (fun m => (n ++ "_" ++ m, PyVal.vFunc ("ftl_tools.tools." ++ n ++ "." ++ m)))
  | Option.none => acc

/-- Embeds `load_tools_by_name` (tools.py lines 57-84). The second
component is everything the function prints or warns: the body contains no
print, warning or logging call at all (the ImportError arm is `pass`), so
it is always empty. -/
def load_tools_by_name (env : ModuleEnv) (tool_names : List String) :
    List (String × PyVal) × List String :=
  (tool_names.foldl (loadToolStep env) [], [])

/-- The parameter list of the definition `def load_tools_by_name
(tool_names: List[str])` (tools.py line 57): exactly one parameter and no
`*args`/`**kwargs`. -/
def load_tools_by_name_params : List String := ["tool_names"]

/-- Python positional-call arity check for a function with a fixed
parameter list and no varargs: supplying more positional arguments than
parameters raises TypeError before the body runs. -/
def pyPositionalCallCheck (fname : String) (params : List String) (nargs : Nat) :
    Option Exc :=
  if params.length < nargs then
    Option.some ⟨ExcClass.typeError,
      PyVal.vStr (fname ++ "() takes " ++ toString params.length ++
        " positional argument but " ++ toString nargs ++ " were given")⟩
  else Option.none

/-- Every key the loader produces for the request `n` is of the form
`n ++ "_" ++ member`, and such a key is strictly longer than `n`, so `n`
itself is never a key. -/
theorem lookupA_map_prefixed (n : String) (f : String → PyVal) (ms : List String) :
    lookupA (ms.map (fun m => (n ++ "_" ++ m, f m))) n = Option.none := by
  induction ms with
  | nil => rfl
  | cons m rest ih =>
    simp only [List.map_cons, lookupA]
    rw [if_neg, ih]
    intro h
    have hl := congrArg String.length h
    simp only [String.length_append] at hl
    have hu : ("_" : String).length = 1 := rfl
    omega

/-- Filtering the requested names down to those whose module actually
imports does not change the loader's fold: absent names contribute
nothing. -/
theorem foldl_loadToolStep_filter (env : ModuleEnv) (names : List String) :
    ∀ acc : List (String × PyVal),
      List.foldl (loadToolStep env)
        acc (names.filter (fun n => (lookupA env ("ftl_tools.tools." ++ n)).isSome)) =
      List.foldl (loadToolStep env) acc names := by
  induction names with
  | nil => intro acc; rfl
  | cons n rest ih =>
    intro acc
    cases hE : lookupA env ("ftl_tools.tools." ++ n) with
    | none =>
      have hk : (lookupA env ("ftl_tools.tools." ++ n)).isSome = false := by
        rw [hE]; rfl
      have hstep : loadToolStep env acc n = acc := by simp [loadToolStep, hE]
      simp only [List.filter_cons, hk, Bool.false_eq_true, if_false,
        List.foldl_cons, hstep]
      exact ih acc
    | some members =>
      have hk : (lookupA env ("ftl_tools.tools." ++ n)).isSome = true := by
        rw [hE]; rfl
      simp only [List.filter_cons, hk, if_true, List.foldl_cons]
      exact ih _

/-- Claim C3: the claim says that for a capability name present in the
default source package the loader returns a mapping with exactly that name
as a key, bound to an instance constructed with the supplied context. On
the code it FAILS three ways, shown by the three conjuncts: (1) the repo's
own tests call `load_tools_by_name(['hostname'], context)`, but the
definition takes exactly one parameter, so that call raises TypeError
before the body runs; (2) even called with one argument, every produced
key is prefixed `<tool_name>_<function>`, so the requested name itself is
never a key of the result; (3) every value is a plain function object —
no class is instantiated and nothing is bound to a context. -/
theorem load_tools_by_name_never_binds_requested_name (env : ModuleEnv) (n : String) :
    pyPositionalCallCheck "load_tools_by_name" load_tools_by_name_params 2 =
      Option.some ⟨ExcClass.typeError,
        PyVal.vStr "load_tools_by_name() takes 1 positional argument but 2 were given"⟩ ∧
    lookupA (load_tools_by_name env [n]).fst n = Option.none ∧
    (∀ k v, (k, v) ∈ (load_tools_by_name env [n]).fst → ∃ s, v = PyVal.vFunc s) := by
  refine ⟨rfl, ?_, ?_⟩
  · show lookupA (loadToolStep env [] n) n = Option.none
    cases hE : lookupA env ("ftl_tools.tools." ++ n) with
    | none => simp [loadToolStep, hE, lookupA]
    | some members =>
      simp only [loadToolStep, hE, List.nil_append]
      exact lookupA_map_prefixed n _ _
  · intro k v hmem
    have hmem2 : (k, v) ∈ loadToolStep env [] n := hmem
    cases hE : lookupA env ("ftl_tools.tools." ++ n) with
    | none => rw [loadToolStep, hE] at hmem2; simp at hmem2
    | some members =>
      rw [loadToolStep, hE] at hmem2
      simp only [List.nil_append, List.mem_map] at hmem2
      obtain ⟨m, _, hmk⟩ := hmem2
      exact ⟨"ftl_tools.tools." ++ n ++ "." ++ m, (congrArg Prod.snd hmk).symm⟩

/-- A concrete module universe for the loader claims: the default package
provides a `hostname` submodule with a public function `hostname` and a
private helper. -/
def c3Env : ModuleEnv := [("ftl_tools.tools.hostname", ["hostname", "_private_helper"])]

/-- Witness for claim C3's theorem at the package layout `c3Env` and the
requested name `hostname` (the scenario of tests/test_loading_tools.py):
`hostname` is not a key of the result, while the prefixed key
`hostname_hostname` is present and holds a plain function. -/
theorem load_tools_by_name_never_binds_requested_name_witness :
    lookupA (load_tools_by_name c3Env ["hostname"]).fst "hostname" = Option.none ∧
    ("hostname_hostname", PyVal.vFunc "ftl_tools.tools.hostname.hostname") ∈
      (load_tools_by_name c3Env ["hostname"]).fst ∧
    (∃ s, PyVal.vFunc "ftl_tools.tools.hostname.hostname" = PyVal.vFunc s) := by
  have hres : (load_tools_by_name c3Env ["hostname"]).fst =
      [("hostname_hostname", PyVal.vFunc "ftl_tools.tools.hostname.hostname")] := rfl
  refine ⟨(load_tools_by_name_never_binds_requested_name c3Env "hostname").2.1, ?_,
    (load_tools_by_name_never_binds_requested_name c3Env "hostname").2.2
      "hostname_hostname" (PyVal.vFunc "ftl_tools.tools.hostname.hostname") ?_⟩ <;>
  · rw [hres]
    exact List.mem_singleton.mpr rfl

/-- A module universe where `hostname` imports and `missing_tool` does
not, for evaluating claim C8. -/
def c8Env : ModuleEnv := [("ftl_tools.tools.hostname", ["hostname"])]

/-- Counterexample to claim C8 as stated: requesting the absent name
`missing_tool` makes the loader emit NO warning of any kind — the emitted
output component of the call is empty (the `except ImportError` arm of
tools.py lines 80-82 is `pass`), contradicting the claimed non-fatal
warning. The absent name is indeed absent: its module path is not
importable in `c8Env`. -/
theorem loader_emits_no_warning_for_absent_name :
    (load_tools_by_name c8Env ["hostname", "missing_tool"]).snd = [] ∧
    lookupA c8Env ("ftl_tools.tools." ++ "missing_tool") = Option.none := by
  exact ⟨rfl, by decide⟩

/-- Claim C8 (amended): for every requested capability name absent from
every candidate source package, the loader SILENTLY skips it — no warning
is emitted — omits it from the returned mapping, and does not raise
(`load_tools_by_name` is total and its emitted output is always empty);
names found in a package are unaffected: dropping the absent names from
the request leaves the result unchanged. -/
theorem loader_silently_omits_absent_names (env : ModuleEnv) (names : List String) :
    (load_tools_by_name env names).snd = [] ∧
    load_tools_by_name env
        (names.filter (fun n => (lookupA env ("ftl_tools.tools." ++ n)).isSome)) =
      load_tools_by_name env names := by
  refine ⟨rfl, ?_⟩
  unfold load_tools_by_name
  rw [foldl_loadToolStep_filter]

/-! ## Inventory loading and the automation setup sequence (core.py) -/

/-- A file system: mapping from path to file contents. -/
structure FS where
  files : List (String × String)
  deriving DecidableEq

/-- Embeds `os.path.exists`. -/
def fsExists (fs : FS) (p : String) : Bool := (lookupA fs.files p).isSome

/-- Reading a file's contents. -/
def fsRead (fs : FS) (p : String) : Option String := lookupA fs.files p

/-- Remove every entry for a key (helper for truncating writes). -/
def eraseKey {α : Type} : List (String × α) → String → List (String × α)
  | [], _ => []
  | (k, v) :: rest, key =>
      if k = key then eraseKey rest key else (k, v) :: eraseKey rest key

/-- Embeds `open(path, 'w')` followed by a write: the file now holds
exactly the written contents. -/
def fsWrite (fs : FS) (p c : String) : FS := ⟨(p, c) :: eraseKey fs.files p⟩

/-- An FTL inventory as the embedding distinguishes it: the inventory
equivalent to an empty mapping, or the symbolic parse of any other
document. -/
inductive Inv where
  | emptyMapping
  | parsedDoc (raw : String)
  deriving DecidableEq

/-- The document `load_inventory` writes for a missing file (core.py
lines 30-31): the characters brace, brace, newline. -/
def emptyInventoryDoc : String := "\x7b\x7d\n"

/-- Modelled from the spec: `faster_than_light.load_inventory` is a call
into the external execution engine (not part of this repository), which
parses a mapping-format inventory document; per the spec, a missing file
is auto-created as an empty inventory and "Loading an inventory path that
does not exist on disk results in an inventory equivalent to an empty
mapping". The model maps the empty-mapping document to the empty
inventory and keeps every other document symbolic. -/
def ftl_load_inventory (contents : String) : Inv :=
  if contents = emptyInventoryDoc then Inv.emptyMapping else Inv.parsedDoc contents

/-- Embeds `load_inventory` (core.py lines 14-33): if the path does not
exist, write the empty-mapping document to it (directory creation is not
modelled — it does not change file contents); then hand the file to
`ftl.load_inventory`. Returns the resulting file system and the loaded
inventory. -/
def load_inventory (fs : FS) (path : String) : FS × Inv :=
  if fsExists fs path then
    (fs, ftl_load_inventory ((fsRead fs path).getD ""))
  else
    let fs2 := fsWrite fs path emptyInventoryDoc
    (fs2, ftl_load_inventory ((fsRead fs2 path).getD ""))

theorem fsRead_fsWrite (fs : FS) (p c : String) :
    fsRead (fsWrite fs p c) p = Option.some c := by
  simp [fsRead, fsWrite, lookupA]

/-- The insertion-ordered keys of the dict returned by
`get_builtin_tools` (builtin_tools.py lines 283-299) — its values are the
eight plain module-level FUNCTIONS, not the `AutomationTool` classes
(those live in `get_builtin_tool_classes`, lines 302-314, which
`automation` never calls). -/
def get_builtin_tools_names : List String :=
  ["user_input_tool", "input_tool", "complete", "impossible",
   "save_user_input", "load_user_input", "get_secret", "debug_tool"]

/-- One execution of `tool_class(context)` from the loop at core.py lines
136-137, where `tool_class` is in fact one of the plain functions returned
by `get_builtin_tools`, so the function is CALLED with the
AutomationContext object as its single positional argument:
`user_input_tool(context)` and `input_tool(context)` run
`Prompt.ask(context, default=None)`, modelled as an external interaction
that returns the supplied answer string; `complete(context)` prints and
raises `builtin_tools.CompletionException(context)` (builtin_tools.py
line 73); `impossible(context)` raises
`builtin_tools.ImpossibleException(context)`; `save_user_input(context)`
would raise TypeError for the missing `value` argument; the remaining
functions return None. Entries after `complete` are never reached by the
loop. -/
def callBuiltinWithCtx (name : String) (promptAnswer : String) : Except Exc PyVal :=
  if name = "user_input_tool" ∨ name = "input_tool" then
    Except.ok (PyVal.vStr promptAnswer)
  else if name = "complete" then
    Except.error ⟨ExcClass.builtinCompletion, PyVal.vCtx⟩
  else if name = "impossible" then
    Except.error ⟨ExcClass.builtinImpossible, PyVal.vCtx⟩
  else if name = "save_user_input" then
    Except.error ⟨ExcClass.typeError,
      PyVal.vStr "save_user_input() missing 1 required positional argument: \x27value\x27"⟩
  else
    Except.ok PyVal.vNone

/-- The loop `for name, tool_class in builtin_tool_classes.items():
tool_instances[name] = tool_class(context)` (core.py lines 135-137): each
call's return value is stored under its name; the first raising call
aborts the loop and propagates. -/
def bindBuiltinsAux (names : List String) (promptAnswer : String)
    (acc : List (String × PyVal)) : Except Exc (List (String × PyVal)) :=
  match names with
  | [] => Except.ok acc
  | n :: rest =>
      match callBuiltinWithCtx n promptAnswer with
      | Except.ok v => bindBuiltinsAux rest promptAnswer (acc ++ [(n, v)])
      | Except.error e => Except.error e

/-- How far the body of the `automation` generator (core.py lines 86-147)
gets: either it reaches `yield context` with the loaded inventory and the
keys of the bound tool mapping, or it raises before the yield. -/
inductive SetupResult where
  | yielded (inv : Inv) (toolKeys : List String)
  | raisedBeforeYield (e : Exc)
  deriving DecidableEq

/-- Embeds the setup part of `automation` (core.py lines 86-147) for a
string inventory argument: load the inventory (auto-creating a missing
file); construct the context; run the builtin-binding loop over
`get_builtin_tools()`; then, when the `tools` argument is non-empty,
execute `load_tools_by_name(tools, context, tool_packages)` (line 141) —
a call that supplies three positional arguments to the one-parameter
definition in tools.py, raising TypeError if reached; finally yield the
context. Module-path filtering, secrets and the background event loop
(lines 96-113) neither raise nor affect these claims and are not
modelled further. -/
def automationSetup (fs : FS) (inventoryPath : String) (toolsArg : List String)
    (promptAnswer : String) : FS × SetupResult :=
  let pr := load_inventory fs inventoryPath
  match bindBuiltinsAux get_builtin_tools_names promptAnswer [] with
  | Except.error e => (pr.fst, SetupResult.raisedBeforeYield e)
  | Except.ok builtinInstances =>
      if toolsArg.isEmpty then
        (pr.fst, SetupResult.yielded pr.snd (builtinInstances.map Prod.fst))
      else
        match pyPositionalCallCheck "load_tools_by_name" load_tools_by_name_params 3 with
        | Option.some e => (pr.fst, SetupResult.raisedBeforeYield e)
        | Option.none =>
            (pr.fst, SetupResult.yielded pr.snd (builtinInstances.map Prod.fst))

/-- Claim C2: the claim says each of the four always-present builtins is
bound as an `AutomationTool` subclass instance in the capability mapping
before the context is yielded. On the code it FAILS: `automation` iterates
`get_builtin_tools()` — the dict of plain FUNCTIONS — and executes
`tool_class(context)`, i.e. calls each function with the context; the
third entry, `complete`, unconditionally raises
`builtin_tools.CompletionException(context)`, so for every file system,
inventory path, tools argument and prompt answer the setup raises before
`yield context` and no tool instance is ever exposed. -/
theorem automation_setup_raises_at_builtin_binding
    (fs : FS) (path : String) (toolsArg : List String) (promptAnswer : String) :
    (automationSetup fs path toolsArg promptAnswer).snd =
      SetupResult.raisedBeforeYield ⟨ExcClass.builtinCompletion, PyVal.vCtx⟩ := by
  rfl

/-- Claim C9: the inventory half of the claim HOLDS — for a path missing
from the file system, `load_inventory` writes the empty-mapping document
to that path and returns the inventory equivalent to an empty mapping,
without raising. But the claim's final clause, that scope construction
does not fail, FAILS on the code: `automation` goes on to execute the
builtin functions and raises before `yield` (the same slip as claim C2),
for this very input. -/
theorem missing_inventory_created_empty_but_setup_raises
    (fs : FS) (path : String) (promptAnswer : String)
    (h : fsExists fs path = false) :
    (load_inventory fs path).snd = Inv.emptyMapping ∧
    fsRead (load_inventory fs path).fst path = Option.some emptyInventoryDoc ∧
    (automationSetup fs path [] promptAnswer).snd =
      SetupResult.raisedBeforeYield ⟨ExcClass.builtinCompletion, PyVal.vCtx⟩ := by
  refine ⟨?_, ?_, rfl⟩
  · simp [load_inventory, h, fsRead_fsWrite, ftl_load_inventory]
  · simp [load_inventory, h, fsRead_fsWrite]

/-- Witness for claim C9's theorem: the empty file system and the path
`inventory.yml`. -/
theorem missing_inventory_created_empty_but_setup_raises_witness :
    (load_inventory ⟨[]⟩ "inventory.yml").snd = Inv.emptyMapping ∧
    fsRead (load_inventory ⟨[]⟩ "inventory.yml").fst "inventory.yml" =
      Option.some emptyInventoryDoc ∧
    (automationSetup ⟨[]⟩ "inventory.yml" [] "answer").snd =
      SetupResult.raisedBeforeYield ⟨ExcClass.builtinCompletion, PyVal.vCtx⟩ :=
  missing_inventory_created_empty_but_setup_raises ⟨[]⟩ "inventory.yml" "answer" rfl

/-- Counterexample to claim C10 as stated: with the non-empty tools list
`["hostname"]`, the exception raised before the context would be yielded
is the builtin CompletionException from the builtin-binding loop (core.py
line 137), NOT a TypeError — the mis-arity call
`load_tools_by_name(tools, context, tool_packages)` at core.py line 141
sits after the builtin loop and is never reached. -/
theorem automation_with_tools_raises_completion_not_type_error :
    (automationSetup ⟨[]⟩ "inventory.yml" ["hostname"] "answer").snd =
      SetupResult.raisedBeforeYield ⟨ExcClass.builtinCompletion, PyVal.vCtx⟩ ∧
    ExcClass.builtinCompletion ≠ ExcClass.typeError :=
  ⟨rfl, by decide⟩

/-- Claim C10 (amended): the call site at core.py line 141 does supply
three positional arguments to `load_tools_by_name`, whose definition
accepts exactly one parameter, and that call would raise TypeError if it
executed; but setup raises at the earlier builtin-binding loop, so for
every non-empty tools list `automation` raises before the context is
yielded — loading additional tools by name through `automation()` cannot
succeed. -/
theorem automation_cannot_load_additional_tools :
    load_tools_by_name_params.length = 1 ∧
    pyPositionalCallCheck "load_tools_by_name" load_tools_by_name_params 3 =
      Option.some ⟨ExcClass.typeError,
        PyVal.vStr "load_tools_by_name() takes 1 positional argument but 3 were given"⟩ ∧
    (∀ (fs : FS) (path : String) (toolsArg : List String) (promptAnswer : String),
      toolsArg ≠ [] →
      ∃ e, (automationSetup fs path toolsArg promptAnswer).snd =
        SetupResult.raisedBeforeYield e) :=
  ⟨rfl, rfl, fun _ _ _ _ _ =>
    ⟨⟨ExcClass.builtinCompletion, PyVal.vCtx⟩, rfl⟩⟩

/-- Witness for claim C10's amended theorem at the tools list
`["hostname"]`. -/
theorem automation_cannot_load_additional_tools_witness :
    ∃ e, (automationSetup ⟨[]⟩ "inventory.yml" ["hostname"] "answer").snd =
      SetupResult.raisedBeforeYield e :=
  automation_cannot_load_additional_tools.2.2 ⟨[]⟩ "inventory.yml" ["hostname"]
    "answer" (by decide)

end FtlAutomation
